import Mathlib

/-!
Verification of the QR readability scorer and layout arithmetic of
`src/QR/BACKEND/server.js` (repository mshraky3/QR-generateor).

Modelling conventions:
* JavaScript strings are modelled as lists of Unicode codepoints (`List Nat`);
  `String.prototype.length` (UTF-16 code units) is `utf16Len`, iteration
  `for (let ch of text)` and `new Set(text)` work on codepoints, matching the
  list representation directly.
* JS truthiness of `customText` is modelled by the list being nonempty: the
  empty string is falsy, exactly like an absent field.
* The uploaded file is `Option (Option ImgMeta)`: the outer option is whether a
  file was uploaded at all (`req.file`), the inner one is whether `sharp` could
  read the image metadata (`metadata()` may throw, and `sharp` may be missing).
* The QR matrix is a size plus a cell predicate, mirroring `matrix.get(row, col)`
  and `matrix.size` of the `qrcode` library object consumed by the scorer.
* A scorer run that throws anywhere (e.g. `QRCode.create` fails on a malformed
  payload) is modelled by the `Option QRMatrix` argument of
  `validateQRCodeReadability` being `none`, which lands in the catch branch.
All division on scores is exact integer / rational arithmetic; the only float
subtlety in the source (0/0 being NaN for an empty matrix) is made explicit in
`getQRComplexity`.
-/

namespace QRGen

/-- Codepoint ranges of the emoji regex used by both `containsEmoji` and
`extractFirstEmoji` (server.js lines 507-517): emoticons, symbols and
pictographs, transport, flags, misc symbols, dingbats. -/
def isEmojiCp (c : Nat) : Bool :=
  (0x1F600 ≤ c && c ≤ 0x1F64F) || (0x1F300 ≤ c && c ≤ 0x1F5FF) ||
  (0x1F680 ≤ c && c ≤ 0x1F6FF) || (0x1F1E0 ≤ c && c ≤ 0x1F1FF) ||
  (0x2600 ≤ c && c ≤ 0x26FF) || (0x2700 ≤ c && c ≤ 0x27BF)

/-- Embeds `containsEmoji` (server.js lines 507-510): the regex `test`. -/
def containsEmoji (t : List Nat) : Bool := t.any isEmojiCp

/-- The fallback glyph of `extractFirstEmoji`: the red heart, U+2764 U+FE0F. -/
def heartFallback : List Nat := [0x2764, 0xFE0F]

/-- Embeds `extractFirstEmoji` (server.js lines 513-517): the first regex match
is the first codepoint lying in the emoji ranges; with no match the fixed heart
string is returned. -/
def extractFirstEmoji (t : List Nat) : List Nat :=
  match t.find? isEmojiCp with
  | Option.some c => [c]
  | Option.none => heartFallback

/-- Embeds `getEmojiComplexity` (server.js lines 556-571): a fixed table keyed
by emoji string, defaulting to 15 for unknown emojis. Keys are the codepoint
sequences of the source literals (the first key is the two-codepoint red
heart). -/
def getEmojiComplexity (e : List Nat) : Int :=
  if e = [0x2764, 0xFE0F] then 5
  else if e = [0x1F499] then 5
  else if e = [0x1F49A] then 5
  else if e = [0x1F49B] then 8
  else if e = [0x1F49C] then 6
  else if e = [0x1F5A4] then 3
  else if e = [0x1F90D] then 10
  else if e = [0x1F525] then 7
  else if e = [0x2B50] then 6
  else if e = [0x1F31F] then 8
  else 15

/-- The ASCII codepoints of the special-character class in `getTextComplexity`
(server.js line 585). -/
def specialChars : List Nat :=
  [33, 34, 35, 36, 37, 38, 39, 40, 41, 42, 43, 44, 45, 46, 47,
   58, 59, 60, 61, 62, 63, 64, 91, 92, 93, 94, 95, 123, 124, 125]

/-- Per-character weight of `getTextComplexity` (server.js lines 581-587):
uppercase 1, lowercase 2, digit 1, special 5, anything else 3. -/
def charWeight (c : Nat) : Int :=
  if 65 ≤ c ∧ c ≤ 90 then 1
  else if 97 ≤ c ∧ c ≤ 122 then 2
  else if 48 ≤ c ∧ c ≤ 57 then 1
  else if c ∈ specialChars then 5
  else 3

/-- JS `text.length`: UTF-16 code units, 2 for astral codepoints, else 1. -/
def utf16Len (t : List Nat) : Nat :=
  (t.map (fun c => if c < 0x10000 then 1 else 2)).sum

/-- Embeds `getTextComplexity` (server.js lines 574-594): length penalty, then
a loop accumulating per-character weights, minus 5 when the codepoint set has
exactly one element, capped at 25 by `Math.min`. -/
def getTextComplexity (t : List Nat) : Int :=
  let c0 : Int := 2 * (utf16Len t : Int)
  let c1 : Int := t.foldl (fun acc ch => acc + charWeight ch) c0
  let c2 : Int := if t.dedup.length = 1 then c1 - 5 else c1
  min c2 25

/-- Image formats distinguished by `getImageComplexity`. -/
inductive ImgFormat where
  | gif
  | webp
  | png
  | jpeg
  | other
deriving DecidableEq

/-- The sharp metadata consumed by `getImageComplexity`. -/
structure ImgMeta where
  width : Nat
  height : Nat
  format : ImgFormat
deriving DecidableEq

/-- Embeds `getImageComplexity` (server.js lines 597-618): 15 when sharp is
unavailable or metadata cannot be read; otherwise base 10, +5 for a dimension
above 1000, +8 for gif else +3 for webp. -/
def getImageComplexity : Option ImgMeta → Int
  | Option.none => 15
  | Option.some md =>
      let c : Int := 10
      let c : Int := if 1000 < md.width ∨ 1000 < md.height then c + 5 else c
      if md.format = ImgFormat.gif then c + 8
      else if md.format = ImgFormat.webp then c + 3
      else c

/-- The square boolean bit-matrix consumed by the scorer: `matrix.size` and
`matrix.get(row, col)` of the `qrcode` library object. -/
structure QRMatrix where
  size : Nat
  get : Nat → Nat → Bool

/-- The filled-cell count of `getQRComplexity`: the row-major double loop over
`matrix.get(row, col)` (server.js lines 629-634). -/
def filledCells (m : QRMatrix) : Nat :=
  ((List.range m.size).map (fun r => (List.range m.size).countP (fun c => m.get r c))).sum

/-- Embeds `getQRComplexity` (server.js lines 621-641): +10 when size > 25 else
+5 when size > 20; density `filledCells / size^2` adds +8 above 0.7 and +5
below 0.3. The density comparisons are written cross-multiplied, which is exact
over the integers; for size = 0, where JS computes 0/0 = NaN and both float
comparisons are false, both integer comparisons are false as well. -/
def getQRComplexity (m : QRMatrix) : Int :=
  let sizePen : Int := if 25 < m.size then 10 else if 20 < m.size then 5 else 0
  let sq := m.size * m.size
  let densityPen : Int :=
    if 7 * sq < 10 * filledCells m then 8
    else if 10 * filledCells m < 3 * sq then 5
    else 0
  sizePen + densityPen

/-- The warning slot of the verdict, as a tagged value: the source builds one
of four fixed message templates (two of which interpolate the emoji or the
text) or leaves the slot null. -/
inductive Warning where
  | none
  | emojiWarning (e : List Nat)
  | textWarning (t : List Nat)
  | imageWarning
  | genericWarning
deriving DecidableEq

/-- The readability verdict returned by `validateQRCodeReadability`. -/
structure Verdict where
  isReadable : Bool
  warning : Warning
deriving DecidableEq

/-- The penalty/warning accumulation of `validateQRCodeReadability`
(server.js lines 450-491), in source order: text-or-emoji penalty when the
caption is truthy, then image penalty when a file was uploaded, then the matrix
penalty; each custom-content subtraction sets the specific warning when the
running score is below 70, and a final combined score below 50 overwrites the
warning with the generic one. -/
def scoreAndWarning (m : QRMatrix) (customText : List Nat)
    (file : Option (Option ImgMeta)) : Int × Warning :=
  let step1 : Int × Warning :=
    if customText = [] then (100, Warning.none)
    else if containsEmoji customText then
      let e := extractFirstEmoji customText
      let s : Int := 100 - getEmojiComplexity e
      (s, if s < 70 then Warning.emojiWarning e else Warning.none)
    else
      let s : Int := 100 - getTextComplexity customText
      (s, if s < 70 then Warning.textWarning customText else Warning.none)
  let step2 : Int × Warning :=
    match file with
    | Option.none => step1
    | Option.some md =>
      let s : Int := step1.1 - getImageComplexity md
      (s, if s < 70 then Warning.imageWarning else step1.2)
  let s3 : Int := step2.1 - getQRComplexity m
  (s3, if s3 < 50 then Warning.genericWarning else step2.2)

/-- Embeds `validateQRCodeReadability` (server.js lines 428-504). The first
argument is the outcome of the fallible preparation steps (`QRCode.toDataURL`,
`QRCode.create`): `none` lands in the catch branch, which fail-opens to
`isReadable = true, warning = null`. -/
def validateQRCodeReadability (build : Option QRMatrix) (customText : List Nat)
    (file : Option (Option ImgMeta)) : Verdict :=
  match build with
  | Option.none => { isReadable := true, warning := Warning.none }
  | Option.some m =>
      let r := scoreAndWarning m customText file
      { isReadable := decide (70 ≤ r.1), warning := r.2 }

/-- The layout value computed by every render path. -/
structure Layout where
  cellSize : Nat
  margin : Nat
  totalSize : Nat
deriving DecidableEq

/-- Embeds the layout arithmetic of `generateTextQRCode` (server.js lines
213-216), with the target pixel size (300 in the source) and the margin (2 in
the source) as parameters: `cellSize = floor(target / size)`,
`totalSize = size * cellSize + margin * 2`. -/
def computeLayout (matrixSize targetPixelSize margin : Nat) : Layout :=
  let cellSize := targetPixelSize / matrixSize
  { cellSize := cellSize
    margin := margin
    totalSize := matrixSize * cellSize + margin * 2 }

/-- Penalty of the active caption variant, following the spec wording of the
single active content penalty: emoji penalty when the caption contains an
emoji, text penalty for a nonempty non-emoji caption, zero otherwise. -/
def activeContentPenalty (t : List Nat) : Int :=
  if t = [] then 0
  else if containsEmoji t then getEmojiComplexity (extractFirstEmoji t)
  else getTextComplexity t

/-- Penalty contributed by the uploaded file slot: zero when no file was
uploaded, otherwise the image penalty of its metadata. -/
def uploadPenalty : Option (Option ImgMeta) → Int
  | Option.none => 0
  | Option.some md => getImageComplexity md

/-- A size-21 matrix with 221 of 441 cells filled: density about 0.501, matrix
penalty 5 (size term only). -/
def sampleMatrix21 : QRMatrix :=
  { size := 21, get := fun r c => (r * 21 + c) % 2 = 0 }

/-- A size-29 matrix with 631 of 841 cells filled: density about 0.750, matrix
penalty 10 + 8 = 18. -/
def denseMatrix29 : QRMatrix :=
  { size := 29, get := fun r c => r * 29 + c < 631 }

/-- The caption of ten exclamation marks: text penalty 20 + 50 - 5 = 65,
capped at 25. -/
def bangTen : List Nat := List.replicate 10 33

/-! Helper lemmas about the penalty functions. -/

lemma charWeight_ge_one (c : Nat) : 1 ≤ charWeight c := by
  unfold charWeight
  repeat' split
  all_goals norm_num

lemma foldl_charWeight (t : List Nat) : ∀ a : Int,
    t.foldl (fun acc ch => acc + charWeight ch) a = a + (t.map charWeight).sum := by
  induction t with
  | nil => intro a; simp
  | cons x xs ih =>
    intro a
    simp only [List.foldl_cons, List.map_cons, List.sum_cons, ih]
    ring

/-- The accumulator loop of `getTextComplexity`, written as the closed-form
the spec states. -/
lemma getTextComplexity_eq (t : List Nat) :
    getTextComplexity t =
      min (2 * (utf16Len t : Int) + (t.map charWeight).sum -
        (if t.dedup.length = 1 then 5 else 0)) 25 := by
  unfold getTextComplexity
  dsimp only
  rw [foldl_charWeight]
  by_cases h : t.dedup.length = 1 <;> simp [h]

lemma length_le_sum_charWeight (t : List Nat) :
    (t.length : Int) ≤ (t.map charWeight).sum := by
  induction t with
  | nil => simp
  | cons x xs ih =>
    have hx := charWeight_ge_one x
    simp only [List.map_cons, List.sum_cons, List.length_cons]
    push_cast
    omega

lemma length_le_utf16Len (t : List Nat) : t.length ≤ utf16Len t := by
  induction t with
  | nil => simp [utf16Len]
  | cons x xs ih =>
    simp only [utf16Len, List.map_cons, List.sum_cons, List.length_cons] at *
    split <;> omega

/-- The text penalty is bounded below by -2 (attained only by one-character
captions whose weight is 1). -/
lemma neg_two_le_getTextComplexity (t : List Nat) : -2 ≤ getTextComplexity t := by
  rw [getTextComplexity_eq]
  have h1 := length_le_sum_charWeight t
  have h2 : (t.length : Int) ≤ (utf16Len t : Int) := by
    exact_mod_cast length_le_utf16Len t
  by_cases h : t.dedup.length = 1
  · have hne : t ≠ [] := by
      intro he
      rw [he] at h
      simp at h
    have hlen : (1 : Int) ≤ t.length := by
      exact_mod_cast List.length_pos.mpr hne
    simp only [h, if_pos]
    omega
  · have hlen : (0 : Int) ≤ t.length := by positivity
    simp only [h, if_neg, ite_false]
    omega

lemma getEmojiComplexity_nonneg (e : List Nat) : 0 ≤ getEmojiComplexity e := by
  unfold getEmojiComplexity
  repeat' split
  all_goals norm_num

lemma getImageComplexity_nonneg (f : Option ImgMeta) : 0 ≤ getImageComplexity f := by
  rcases f with _ | md
  · norm_num [getImageComplexity]
  · unfold getImageComplexity
    dsimp only
    repeat' split
    all_goals norm_num

lemma getQRComplexity_nonneg (m : QRMatrix) : 0 ≤ getQRComplexity m := by
  unfold getQRComplexity
  dsimp only
  repeat' split
  all_goals norm_num

lemma getQRComplexity_le_18 (m : QRMatrix) : getQRComplexity m ≤ 18 := by
  unfold getQRComplexity
  dsimp only
  repeat' split
  all_goals norm_num

/-- The content penalty of the scorer: at least -2 whatever the caption. -/
lemma neg_two_le_activeContentPenalty (t : List Nat) : -2 ≤ activeContentPenalty t := by
  unfold activeContentPenalty
  split
  · norm_num
  split
  · have := getEmojiComplexity_nonneg (extractFirstEmoji t)
    omega
  · exact neg_two_le_getTextComplexity t

lemma uploadPenalty_nonneg (f : Option (Option ImgMeta)) : 0 ≤ uploadPenalty f := by
  rcases f with _ | md
  · norm_num [uploadPenalty]
  · exact getImageComplexity_nonneg md

/-- The running score of the scorer, as the sum of the content, upload and
matrix penalties subtracted from 100: both the caption penalty and the image
penalty are subtracted whenever both inputs are present. -/
lemma scoreAndWarning_fst (m : QRMatrix) (t : List Nat) (f : Option (Option ImgMeta)) :
    (scoreAndWarning m t f).1 =
      100 - activeContentPenalty t - uploadPenalty f - getQRComplexity m := by
  unfold scoreAndWarning activeContentPenalty uploadPenalty
  rcases f with _ | md <;>
    by_cases h1 : t = [] <;>
      by_cases h2 : containsEmoji t <;>
        simp [h1, h2] <;> ring

/-- The warning slot of the scorer, characterized by priority: the generic
warning when the final score is below 50, else the image warning when a file
is present and the running score after its penalty is below 70, else the
specific caption warning when the running score after the caption penalty is
below 70, else no warning. -/
lemma scoreAndWarning_snd (m : QRMatrix) (t : List Nat) (f : Option (Option ImgMeta)) :
    (scoreAndWarning m t f).2 =
      if 100 - activeContentPenalty t - uploadPenalty f - getQRComplexity m < 50 then
        Warning.genericWarning
      else if f.isSome = true ∧ 100 - activeContentPenalty t - uploadPenalty f < 70 then
        Warning.imageWarning
      else if t ≠ [] ∧ containsEmoji t = true ∧
          100 - getEmojiComplexity (extractFirstEmoji t) < 70 then
        Warning.emojiWarning (extractFirstEmoji t)
      else if t ≠ [] ∧ containsEmoji t = false ∧ 100 - getTextComplexity t < 70 then
        Warning.textWarning t
      else Warning.none := by
  unfold scoreAndWarning activeContentPenalty uploadPenalty
  rcases f with _ | md <;> by_cases h1 : t = [] <;> by_cases h2 : containsEmoji t <;>
    first
      | (rw [h1] at h2; exact absurd h2 (by decide))
      | (simp only [h1, h2, if_true, if_false, ite_true, ite_false, ne_eq,
          not_true_eq_false, not_false_eq_true, Option.isSome_none, Option.isSome_some,
          Bool.false_eq_true, true_and, false_and, and_true, and_false, sub_zero,
          if_pos, Prod.fst, Prod.snd] <;> split_ifs <;> simp_all <;> omega)

lemma five_le_getQRComplexity (m : QRMatrix) (h : 20 < m.size) : 5 ≤ getQRComplexity m := by
  unfold getQRComplexity
  dsimp only
  split_ifs <;> omega

/-! Theorems for the individual claims. -/

/-- C1 counterexample: on a scorer invocation carrying both the ten-bang
caption and an uploaded file (unreadable metadata), the score is 55 =
100 - 25 - 15 - 5: both the text penalty (25) and the image penalty (15) are
subtracted alongside the matrix penalty (5), while an accounting with a single
active content penalty would give 70 (text only) or 80 (image only). -/
theorem c1_single_penalty_counterexample :
    getTextComplexity bangTen = 25 ∧
    getImageComplexity Option.none = 15 ∧
    getQRComplexity sampleMatrix21 = 5 ∧
    (scoreAndWarning sampleMatrix21 bangTen (Option.some Option.none)).1 = 55 ∧
    (55 : Int) ≠ 100 - getTextComplexity bangTen - getQRComplexity sampleMatrix21 ∧
    (55 : Int) ≠ 100 - getImageComplexity Option.none - getQRComplexity sampleMatrix21 :=
  ⟨by decide, by decide, by decide, by decide, by decide, by decide⟩

/-- C1 (amended): for every scorer invocation the final score is 100 minus the
caption penalty (emoji penalty when the caption contains an emoji, text
penalty otherwise; text and emoji penalties remain mutually exclusive) minus
the image penalty when a file is uploaded minus the matrix penalty — both a
caption penalty and an image penalty are subtracted when both inputs are
supplied — and `isReadable` holds exactly when this score is at least 70. -/
theorem c1_score_decomposition (m : QRMatrix) (t : List Nat)
    (f : Option (Option ImgMeta)) :
    (scoreAndWarning m t f).1 =
      100 - activeContentPenalty t - uploadPenalty f - getQRComplexity m ∧
    ((validateQRCodeReadability (Option.some m) t f).isReadable = true ↔
      70 ≤ (scoreAndWarning m t f).1) := by
  refine ⟨scoreAndWarning_fst m t f, ?_⟩
  unfold validateQRCodeReadability
  simp

lemma utf16Len_eq_length (t : List Nat) (h : ∀ c ∈ t, c < 65536) :
    utf16Len t = t.length := by
  induction t with
  | nil => simp [utf16Len]
  | cons x xs ih =>
    have hx := h x (by simp)
    have hxs : ∀ c ∈ xs, c < 65536 := fun c hc => h c (by simp [hc])
    simp only [utf16Len, List.map_cons, List.sum_cons, List.length_cons] at *
    rw [if_pos hx, ih hxs]
    omega

lemma sum_charWeight_upper (t : List Nat) (h : ∀ c ∈ t, 65 ≤ c ∧ c ≤ 90) :
    (t.map charWeight).sum = (t.length : Int) := by
  induction t with
  | nil => simp
  | cons x xs ih =>
    have hx := h x (by simp)
    have hxs : ∀ c ∈ xs, 65 ≤ c ∧ c ≤ 90 := fun c hc => h c (by simp [hc])
    have hw : charWeight x = 1 := by unfold charWeight; rw [if_pos hx]
    simp only [List.map_cons, List.sum_cons, List.length_cons, hw, ih hxs]
    push_cast
    ring

/-- C2: the text penalty is twice the UTF-16 length plus the per-character
weights, minus 5 for a single repeated codepoint, capped at 25; every
10-character uppercase caption scores exactly 25, and so does the caption of
ten lowercase letters a. -/
theorem c2_text_penalty (t : List Nat) (hlen : t.length = 10)
    (hup : ∀ c ∈ t, 65 ≤ c ∧ c ≤ 90) :
    (∀ s : List Nat, getTextComplexity s =
        min (2 * (utf16Len s : Int) + (s.map charWeight).sum -
          (if s.dedup.length = 1 then 5 else 0)) 25) ∧
    getTextComplexity t = 25 ∧
    getTextComplexity (List.replicate 10 97) = 25 := by
  refine ⟨getTextComplexity_eq, ?_, by decide⟩
  have h16 : utf16Len t = 10 := by
    rw [utf16Len_eq_length t (fun c hc => lt_of_le_of_lt (hup c hc).2 (by norm_num)), hlen]
  have hsum : (t.map charWeight).sum = (10 : Int) := by
    rw [sum_charWeight_upper t hup, hlen]
    norm_num
  rw [getTextComplexity_eq, h16, hsum]
  by_cases h : t.dedup.length = 1 <;> simp [h]

/-- C2 witness: the all-uppercase caption AAAAAAAAAA satisfies the hypotheses
and scores 25. -/
theorem c2_text_penalty_witness :
    getTextComplexity (List.replicate 10 65) = 25 :=
  (c2_text_penalty (List.replicate 10 65) (by decide) (by decide)).2.1

/-- C3 counterexample: the one-character caption A has text penalty
2 + 1 - 5 = -2, a negative penalty term, contradicting the claim that every
penalty term (the text penalty in particular) is non-negative. -/
theorem c3_nonneg_counterexample :
    getTextComplexity [65] = -2 ∧ getTextComplexity [65] < 0 :=
  ⟨by decide, by decide⟩

/-- C3 (amended): the emoji, image and matrix penalties are non-negative, but
the text penalty is only bounded below by -2 (reached by single repeated
uppercase or digit captions), so the score is bounded by 102 in general, and
by 97 for every matrix of size above 20 (every real QR matrix, whose size is
at least 21). -/
theorem c3_penalty_bounds :
    (∀ e : List Nat, 0 ≤ getEmojiComplexity e) ∧
    (∀ f : Option ImgMeta, 0 ≤ getImageComplexity f) ∧
    (∀ m : QRMatrix, 0 ≤ getQRComplexity m) ∧
    (∀ t : List Nat, -2 ≤ getTextComplexity t) ∧
    (∀ (m : QRMatrix) (t : List Nat) (f : Option (Option ImgMeta)),
      (scoreAndWarning m t f).1 ≤ 102) ∧
    (∀ (m : QRMatrix) (t : List Nat) (f : Option (Option ImgMeta)),
      20 < m.size → (scoreAndWarning m t f).1 ≤ 97) := by
  refine ⟨getEmojiComplexity_nonneg, getImageComplexity_nonneg, getQRComplexity_nonneg,
    neg_two_le_getTextComplexity, ?_, ?_⟩
  · intro m t f
    have h1 := neg_two_le_activeContentPenalty t
    have h2 := uploadPenalty_nonneg f
    have h3 := getQRComplexity_nonneg m
    rw [scoreAndWarning_fst]
    omega
  · intro m t f h
    have h1 := neg_two_le_activeContentPenalty t
    have h2 := uploadPenalty_nonneg f
    have h3 := five_le_getQRComplexity m h
    rw [scoreAndWarning_fst]
    omega

/-- C3 witness: the amended bound instantiated on the concrete size-21
matrix. -/
theorem c3_penalty_bounds_witness :
    (scoreAndWarning sampleMatrix21 [] Option.none).1 ≤ 97 :=
  c3_penalty_bounds.2.2.2.2.2 sampleMatrix21 [] Option.none (by decide)

/-- C4: the warning is the specific contributing factor (naming the emoji, the
text, or that an image was involved) whose penalty subtraction took the
running score below 70, it is overwritten by the generic complexity warning
exactly when the final combined score drops below 50 (later warnings take
precedence in the order generic over image over caption), and with no custom
content and a final score of at least 50 the warning is null. -/
theorem c4_warning_priority (m : QRMatrix) (t : List Nat)
    (f : Option (Option ImgMeta)) :
    ((scoreAndWarning m t f).2 =
      if 100 - activeContentPenalty t - uploadPenalty f - getQRComplexity m < 50 then
        Warning.genericWarning
      else if f.isSome = true ∧ 100 - activeContentPenalty t - uploadPenalty f < 70 then
        Warning.imageWarning
      else if t ≠ [] ∧ containsEmoji t = true ∧
          100 - getEmojiComplexity (extractFirstEmoji t) < 70 then
        Warning.emojiWarning (extractFirstEmoji t)
      else if t ≠ [] ∧ containsEmoji t = false ∧ 100 - getTextComplexity t < 70 then
        Warning.textWarning t
      else Warning.none) ∧
    ((scoreAndWarning m t f).2 = Warning.genericWarning ↔
      (scoreAndWarning m t f).1 < 50) ∧
    (t = [] → f = Option.none → 50 ≤ (scoreAndWarning m t f).1 →
      (scoreAndWarning m t f).2 = Warning.none) := by
  refine ⟨scoreAndWarning_snd m t f, ?_, ?_⟩
  · rw [scoreAndWarning_snd, scoreAndWarning_fst]
    split_ifs <;> simp_all
  · intro ht hf hge
    subst ht
    subst hf
    rw [scoreAndWarning_fst] at hge
    rw [scoreAndWarning_snd]
    rw [if_neg (by omega)]
    simp

/-- C4 witness: with no custom content on the concrete size-21 matrix the
final score stays at least 50 and the warning is null. -/
theorem c4_warning_priority_witness :
    (scoreAndWarning sampleMatrix21 [] Option.none).2 = Warning.none :=
  (c4_warning_priority sampleMatrix21 [] Option.none).2.2 rfl rfl (by decide)

/-- C5: the matrix penalty is the size term (10 above size 25, else 5 above
size 20) plus the density term (8 above dark fraction 7/10, 5 below 3/10),
written with the exact rational dark-cell fraction; it never exceeds 18, and a
size-29 matrix with dark fraction above 7/10 (such as 0.75) scores exactly
10 + 8 = 18. -/
theorem c5_matrix_penalty (m : QRMatrix) (h : 0 < m.size) :
    (getQRComplexity m =
      (if 25 < m.size then 10 else if 20 < m.size then 5 else 0) +
      (if 7 / 10 < (filledCells m : ℚ) / ((m.size : ℚ) * (m.size : ℚ)) then 8
       else if (filledCells m : ℚ) / ((m.size : ℚ) * (m.size : ℚ)) < 3 / 10 then 5
       else 0)) ∧
    getQRComplexity m ≤ 18 ∧
    (m.size = 29 → 7 / 10 < (filledCells m : ℚ) / ((m.size : ℚ) * (m.size : ℚ)) →
      getQRComplexity m = 18) := by
  have hS : (0 : ℚ) < (m.size : ℚ) * (m.size : ℚ) := by
    have : (0 : ℚ) < (m.size : ℚ) := by exact_mod_cast h
    positivity
  have h1 : (7 / 10 : ℚ) < (filledCells m : ℚ) / ((m.size : ℚ) * (m.size : ℚ)) ↔
      7 * (m.size * m.size) < 10 * filledCells m := by
    rw [div_lt_div_iff₀ (by norm_num) hS]
    rw [show ((7 : ℚ) * ((m.size : ℚ) * (m.size : ℚ))) =
        ((7 * (m.size * m.size) : Nat) : ℚ) by push_cast; ring]
    rw [show ((filledCells m : ℚ) * 10) = ((10 * filledCells m : Nat) : ℚ) by
      push_cast; ring]
    exact Nat.cast_lt
  have h2 : ((filledCells m : ℚ) / ((m.size : ℚ) * (m.size : ℚ)) < 3 / 10) ↔
      10 * filledCells m < 3 * (m.size * m.size) := by
    rw [div_lt_div_iff₀ hS (by norm_num)]
    rw [show ((filledCells m : ℚ) * 10) = ((10 * filledCells m : Nat) : ℚ) by
      push_cast; ring]
    rw [show ((3 : ℚ) * ((m.size : ℚ) * (m.size : ℚ))) =
        ((3 * (m.size * m.size) : Nat) : ℚ) by push_cast; ring]
    exact Nat.cast_lt
  refine ⟨?_, getQRComplexity_le_18 m, ?_⟩
  · unfold getQRComplexity
    dsimp only
    simp only [h1, h2]
  · intro h29 hd
    have hnat : 7 * (m.size * m.size) < 10 * filledCells m := h1.mp hd
    unfold getQRComplexity
    dsimp only
    rw [if_pos (by omega : 25 < m.size), if_pos hnat]
    norm_num

/-- C5 witness: the concrete size-29 matrix with 631 of 841 dark cells
(fraction about 0.750) has matrix penalty 18. -/
theorem c5_matrix_penalty_witness : getQRComplexity denseMatrix29 = 18 :=
  (c5_matrix_penalty denseMatrix29 (by decide)).2.2 rfl (by
    have hf : filledCells denseMatrix29 = 631 := by decide
    have hs : denseMatrix29.size = 29 := rfl
    rw [hf, hs]
    norm_num)

/-- C6: the image penalty is base 10, plus 5 when a dimension exceeds 1000,
plus 8 for the animated-capable format (gif), plus 3 for the
lossy-with-alpha format (webp), the format additions being mutually exclusive;
it is exactly 15 when the metadata cannot be read, and a 2000 by 2000 gif
scores 23. -/
theorem c6_image_penalty :
    (∀ md : ImgMeta, getImageComplexity (Option.some md) =
        10 + (if 1000 < md.width ∨ 1000 < md.height then 5 else 0) +
        (if md.format = ImgFormat.gif then 8 else 0) +
        (if md.format = ImgFormat.webp then 3 else 0)) ∧
    getImageComplexity Option.none = 15 ∧
    getImageComplexity
      (Option.some { width := 2000, height := 2000, format := ImgFormat.gif }) = 23 := by
  refine ⟨?_, rfl, by decide⟩
  intro md
  unfold getImageComplexity
  rcases md with ⟨w, hgt, fmt⟩
  rcases fmt <;> dsimp only <;> split_ifs <;> simp_all

/-- C7: whenever any preparation step of the scorer fails, the error is not
propagated: the verdict fail-opens to readable with no warning. -/
theorem c7_fail_open (t : List Nat) (f : Option (Option ImgMeta)) :
    validateQRCodeReadability Option.none t f =
      { isReadable := true, warning := Warning.none } := rfl

/-- C8: the layout arithmetic: cell size is the floor of target over matrix
size, total size is matrix size times cell size plus twice the margin;
consequently the cell size is at least 1 whenever the target reaches the
matrix size, and the total size undershoots the target by less than the
matrix size and never exceeds target plus twice the margin. -/
theorem c8_layout (s t m : Nat) (hs : 1 ≤ s) (_ht : 1 ≤ t) :
    (computeLayout s t m).cellSize = t / s ∧
    (computeLayout s t m).totalSize = s * (t / s) + m * 2 ∧
    (s ≤ t → 1 ≤ (computeLayout s t m).cellSize) ∧
    t - s ≤ (computeLayout s t m).totalSize ∧
    (computeLayout s t m).totalSize ≤ t + m * 2 := by
  have hml : t % s < s := Nat.mod_lt t hs
  refine ⟨rfl, rfl, ?_, ?_, ?_⟩
  · intro hle
    exact (Nat.one_le_div_iff hs).mpr hle
  · show t - s ≤ s * (t / s) + m * 2
    have h1 : t ≤ s * (t / s) + s := by
      conv_lhs => rw [← Nat.div_add_mod t s]
      exact Nat.add_le_add_left hml.le _
    exact le_trans (Nat.sub_le_of_le_add h1) (Nat.le_add_right _ _)
  · show s * (t / s) + m * 2 ≤ t + m * 2
    refine Nat.add_le_add_right ?_ _
    rw [Nat.mul_comm]
    exact Nat.div_mul_le_self t s

/-- C8 witness: the source instantiation, a size-21 matrix at target 300 with
margin 2, has cell size at least 1. -/
theorem c8_layout_witness : 1 ≤ (computeLayout 21 300 2).cellSize :=
  (c8_layout 21 300 2 (by decide) (by decide)).2.2.1 (by decide)

/-- C9: emoji extraction is a pure function of the caption: it returns the
first codepoint falling in the curated emoji ranges, falls back to the fixed
heart glyph exactly when no codepoint of the caption is in the ranges, and
`containsEmoji` holds exactly when some codepoint is in the ranges. -/
theorem c9_emoji_extraction :
    (∀ (p : List Nat) (c : Nat) (s : List Nat),
      (∀ x ∈ p, isEmojiCp x = false) → isEmojiCp c = true →
        extractFirstEmoji (p ++ c :: s) = [c]) ∧
    (∀ t : List Nat, (∀ x ∈ t, isEmojiCp x = false) →
      extractFirstEmoji t = heartFallback) ∧
    (∀ t : List Nat, containsEmoji t = true ↔ ∃ c ∈ t, isEmojiCp c = true) ∧
    (∀ t₁ t₂ : List Nat, t₁ = t₂ → extractFirstEmoji t₁ = extractFirstEmoji t₂) := by
  refine ⟨?_, ?_, ?_, ?_⟩
  · intro p c s hp hc
    unfold extractFirstEmoji
    have hfind : (p ++ c :: s).find? isEmojiCp = Option.some c := by
      induction p with
      | nil =>
        rw [List.nil_append]
        exact List.find?_cons_of_pos _ hc
      | cons x xs ih =>
        have hx := hp x (by simp)
        rw [List.cons_append, List.find?_cons_of_neg _ (by simp [hx])]
        exact ih (fun y hy => hp y (by simp [hy]))
    rw [hfind]
  · intro t ht
    unfold extractFirstEmoji
    have hfind : t.find? isEmojiCp = Option.none :=
      List.find?_eq_none.mpr (fun x hx => by simp [ht x hx])
    rw [hfind]
  · intro t
    simp [containsEmoji, List.any_eq_true]
  · intro t₁ t₂ hteq
    rw [hteq]

/-- C9 witness: on the caption h i fire-emoji the extraction skips the two
non-emoji codepoints and returns the fire emoji. -/
theorem c9_emoji_extraction_witness :
    extractFirstEmoji [104, 105, 0x1F525] = [0x1F525] :=
  c9_emoji_extraction.1 [104, 105] 0x1F525 [] (by decide) (by decide)

/-- C10: with no caption and no uploaded file only the matrix penalty applies,
bounded by 18, so the score is at least 82 and the non-failure verdict is
always readable with no warning, regardless of the matrix. -/
theorem c10_no_custom_content (m : QRMatrix) :
    validateQRCodeReadability (Option.some m) [] Option.none =
      { isReadable := true, warning := Warning.none } ∧
    82 ≤ (scoreAndWarning m [] Option.none).1 := by
  have h18 := getQRComplexity_le_18 m
  have hsc : (scoreAndWarning m [] Option.none).1 = 100 - getQRComplexity m := by
    rw [scoreAndWarning_fst]
    simp [activeContentPenalty, uploadPenalty]
  have h82 : 82 ≤ (scoreAndWarning m [] Option.none).1 := by omega
  refine ⟨?_, h82⟩
  have hw : (scoreAndWarning m [] Option.none).2 = Warning.none := by
    rw [scoreAndWarning_snd]
    rw [if_neg (by simp only [activeContentPenalty, uploadPenalty]; simp; omega)]
    simp
  unfold validateQRCodeReadability
  dsimp only
  rw [hw]
  have hr : decide (70 ≤ (scoreAndWarning m [] Option.none).1) = true := by
    simp only [decide_eq_true_eq]
    omega
  rw [hr]

end QRGen
